import Mathlib

/-!
Verification of the Breeze API client library (session management, request
signing, and read operations) against its specification.

The development shallowly embeds the Python sources:
  * `src/utils/config.py`   — configuration loading and attribute access
  * `src/auth/breeze_auth.py` — `BreezeAuth`: session lifecycle
  * `src/api/breeze_client.py` — `BreezeClient`: checksum, headers, reads

Machine-level details are modelled with `Nat` (bytes are `Nat < 256`, 32-bit
words are `Nat` with explicit `% 2^32`), time is a `Nat` clock passed
explicitly, the remote HTTP service is an explicit outcome parameter, and
Python exceptions escaping a method are an `Except` error channel.
-/

/-! ## SHA-256 (model of Python hashlib.sha256, bytes as Nat < 256) -/

/-- 32-bit right rotation on a word `x < 2^32`. -/
def rotr32 (n x : Nat) : Nat :=
  ((x >>> n) ||| (x <<< (32 - n))) % 4294967296

/-- The SHA-256 round constants (FIPS 180-4), written in decimal. -/
def sha256K : List Nat :=
  [1116352408, 1899447441, 3049323471, 3921009573,
   961987163, 1508970993, 2453635748, 2870763221,
   3624381080, 310598401, 607225278, 1426881987,
   1925078388, 2162078206, 2614888103, 3248222580,
   3835390401, 4022224774, 264347078, 604807628,
   770255983, 1249150122, 1555081692, 1996064986,
   2554220882, 2821834349, 2952996808, 3210313671,
   3336571891, 3584528711, 113926993, 338241895,
   666307205, 773529912, 1294757372, 1396182291,
   1695183700, 1986661051, 2177026350, 2456956037,
   2730485921, 2820302411, 3259730800, 3345764771,
   3516065817, 3600352804, 4094571909, 275423344,
   430227734, 506948616, 659060556, 883997877,
   958139571, 1322822218, 1537002063, 1747873779,
   1955562222, 2024104815, 2227730452, 2361852424,
   2428436474, 2756734187, 3204031479, 3329325298]

/-- The SHA-256 initial hash value, eight 32-bit words. -/
structure Sha256State where
  h0 : Nat
  h1 : Nat
  h2 : Nat
  h3 : Nat
  h4 : Nat
  h5 : Nat
  h6 : Nat
  h7 : Nat

/-- Initial SHA-256 chaining value (FIPS 180-4), written in decimal. -/
def sha256Init : Sha256State :=
  ⟨1779033703, 3144134277, 1013904242, 2773480762,
   1359893119, 2600822924, 528734635, 1541459225⟩

/-- Big-endian byte serialization of `v` on `n` bytes. -/
def toBytesBE : Nat → Nat → List Nat
  | 0, _ => []
  | k + 1, v => toBytesBE k (v / 256) ++ [v % 256]

/-- SHA-256 message padding: append `0x80`, zero bytes up to 56 mod 64, and
the 64-bit big-endian bit length. -/
def sha256Pad (msg : List Nat) : List Nat :=
  let padZeros := (119 - msg.length % 64) % 64
  msg ++ [0x80] ++ List.replicate padZeros 0 ++ toBytesBE 8 (msg.length * 8)

/-- Split a byte list into successive 64-byte chunks; `fuel` bounds the
number of chunks (any `fuel ≥ l.length` is enough, as a chunk is nonempty). -/
def chunks64Aux : Nat → List Nat → List (List Nat)
  | 0, _ => []
  | _, [] => []
  | fuel + 1, l => l.take 64 :: chunks64Aux fuel (l.drop 64)

/-- Split a byte list into successive 64-byte chunks. -/
def chunks64 (l : List Nat) : List (List Nat) :=
  chunks64Aux l.length l

/-- The first sixteen 32-bit big-endian words of a 64-byte chunk. -/
def wordsOfChunk (c : List Nat) : List Nat :=
  (List.range 16).map fun i =>
    c.getD (4 * i) 0 * 16777216 + c.getD (4 * i + 1) 0 * 65536 +
      c.getD (4 * i + 2) 0 * 256 + c.getD (4 * i + 3) 0

/-- Extend the sixteen message words to the 64-entry message schedule. -/
def sha256Schedule (w : List Nat) : List Nat :=
  (List.range 48).foldl
    (fun w _ =>
      let i := w.length
      let x15 := w.getD (i - 15) 0
      let x2 := w.getD (i - 2) 0
      let s0 := rotr32 7 x15 ^^^ rotr32 18 x15 ^^^ (x15 >>> 3)
      let s1 := rotr32 17 x2 ^^^ rotr32 19 x2 ^^^ (x2 >>> 10)
      w ++ [(w.getD (i - 16) 0 + s0 + w.getD (i - 7) 0 + s1) % 4294967296])
    w

/-- One SHA-256 compression step over a 64-byte chunk. -/
def sha256Compress (st : Sha256State) (chunk : List Nat) : Sha256State :=
  let w := sha256Schedule (wordsOfChunk chunk)
  let r :=
    (List.range 64).foldl
      (fun (t : Nat × Nat × Nat × Nat × Nat × Nat × Nat × Nat) i =>
        let (a, b, c, d, e, f, g, h) := t
        let s1 := rotr32 6 e ^^^ rotr32 11 e ^^^ rotr32 25 e
        let ch := (e &&& f) ^^^ ((e ^^^ 4294967295) &&& g)
        let temp1 := (h + s1 + ch + sha256K.getD i 0 + w.getD i 0) % 4294967296
        let s0 := rotr32 2 a ^^^ rotr32 13 a ^^^ rotr32 22 a
        let maj := (a &&& b) ^^^ (a &&& c) ^^^ (b &&& c)
        let temp2 := (s0 + maj) % 4294967296
        (((temp1 + temp2) % 4294967296), a, b, c, (d + temp1) % 4294967296,
          e, f, g))
      (st.h0, st.h1, st.h2, st.h3, st.h4, st.h5, st.h6, st.h7)
  let (a, b, c, d, e, f, g, h) := r
  ⟨(st.h0 + a) % 4294967296, (st.h1 + b) % 4294967296,
   (st.h2 + c) % 4294967296, (st.h3 + d) % 4294967296,
   (st.h4 + e) % 4294967296, (st.h5 + f) % 4294967296,
   (st.h6 + g) % 4294967296, (st.h7 + h) % 4294967296⟩

/-- SHA-256 digest of a byte sequence, as 32 bytes. -/
def sha256 (msg : List Nat) : List Nat :=
  let fin := (chunks64 (sha256Pad msg)).foldl sha256Compress sha256Init
  toBytesBE 4 fin.h0 ++ toBytesBE 4 fin.h1 ++ toBytesBE 4 fin.h2 ++
    toBytesBE 4 fin.h3 ++ toBytesBE 4 fin.h4 ++ toBytesBE 4 fin.h5 ++
    toBytesBE 4 fin.h6 ++ toBytesBE 4 fin.h7

/-- Lowercase hex characters of a byte list, two characters per byte
(model of Python hexdigest output). -/
def hexChars : List Nat → List Char
  | [] => []
  | b :: t => Nat.digitChar (b / 16) :: Nat.digitChar (b % 16) :: hexChars t

/-- Lowercase hex string of a byte list. -/
def hexOfBytes (bs : List Nat) : String := ⟨hexChars bs⟩

/-- UTF-8 encoding of one Unicode scalar value, as bytes
(model of Python str.encode applied to one character). -/
def utf8EncodeChar (c : Char) : List Nat :=
  let n := c.toNat
  if n < 128 then [n]
  else if n < 2048 then
    [192 ||| (n >>> 6), 128 ||| (n &&& 63)]
  else if n < 65536 then
    [224 ||| (n >>> 12), 128 ||| ((n >>> 6) &&& 63), 128 ||| (n &&& 63)]
  else
    [240 ||| (n >>> 18), 128 ||| ((n >>> 12) &&& 63),
     128 ||| ((n >>> 6) &&& 63), 128 ||| (n &&& 63)]

/-- UTF-8 encoding of a string (model of Python str.encode with utf-8). -/
def utf8Encode (s : String) : List Nat :=
  (s.data.map utf8EncodeChar).flatten

set_option maxRecDepth 40000

example : hexOfBytes (sha256 (utf8Encode "")) =
    "e3b0c44298fc1c149afbf4c8996fb92427ae41e4649b934ca495991b7852b855" := by
  rfl

example : hexOfBytes (sha256 (utf8Encode "abc")) =
    "ba7816bf8f01cfea414140de5dae2223b00361a396177a9cb410ff61f20015ad" := by
  rfl

theorem toBytesBE_length (n v : Nat) : (toBytesBE n v).length = n := by
  induction n generalizing v with
  | zero => rfl
  | succ k ih => simp [toBytesBE, ih]

theorem sha256_length (msg : List Nat) : (sha256 msg).length = 32 := by
  simp [sha256, toBytesBE_length]

theorem hexChars_length (bs : List Nat) : (hexChars bs).length = 2 * bs.length := by
  induction bs with
  | nil => rfl
  | cons b t ih =>
      simp only [hexChars, List.length_cons, ih]
      omega

theorem hexOfBytes_length (bs : List Nat) :
    (hexOfBytes bs).length = 2 * bs.length := by
  simpa [hexOfBytes, String.length] using hexChars_length bs

/-! ## Configuration (src/utils/config.py) -/

/-- A Python value, as far as configuration attributes need one. -/
inductive PyVal where
  | pyNone : PyVal
  | pyStr : String → PyVal
  | pyInt : Int → PyVal
deriving DecidableEq

/-- An os.getenv result as a Python value (None when the variable is unset). -/
def pyOfEnv : Option String → PyVal
  | Option.none => PyVal.pyNone
  | some s => PyVal.pyStr s

/-- The configuration object exactly as Config._load_config leaves it: the ten
attributes the method assigns, with the source's os.getenv defaults. No
breeze_account_id attribute is ever assigned. -/
structure Config where
  breeze_api_key : PyVal
  breeze_secret_key : PyVal
  breeze_session_token : PyVal
  breeze_base_url : PyVal
  environment : PyVal
  timescaledb_host : PyVal
  timescaledb_port : PyVal
  timescaledb_database : PyVal
  timescaledb_user : PyVal
  timescaledb_password : PyVal
deriving DecidableEq

/-- Config._load_config over an environment (the os.getenv map). -/
def _load_config (env : String → Option String) : Config where
  breeze_api_key := pyOfEnv (env "BREEZE_API_KEY")
  breeze_secret_key := pyOfEnv (env "BREEZE_SECRET_KEY")
  breeze_session_token := pyOfEnv (env "BREEZE_SESSION_TOKEN")
  breeze_base_url :=
    PyVal.pyStr ((env "BREEZE_BASE_URL").getD "https://api.icicidirect.com/breezeapi/v1")
  environment := PyVal.pyStr ((env "ENVIRONMENT").getD "development")
  timescaledb_host := PyVal.pyStr ((env "TIMESCALEDB_HOST").getD "localhost")
  timescaledb_port :=
    match env "TIMESCALEDB_PORT" with
    | some s => PyVal.pyStr s
    | Option.none => PyVal.pyInt 5432
  timescaledb_database := PyVal.pyStr ((env "TIMESCALEDB_DATABASE").getD "algo_trading")
  timescaledb_user := PyVal.pyStr ((env "TIMESCALEDB_USER").getD "algo_user")
  timescaledb_password := PyVal.pyStr ((env "TIMESCALEDB_PASSWORD").getD "algo_trading_db")

/-- Python getattr on a Config instance: a value for exactly the attributes
_load_config assigned, nothing (AttributeError) for any other name. -/
def Config.getattr (c : Config) (name : String) : Option PyVal :=
  if name = "breeze_api_key" then some c.breeze_api_key
  else if name = "breeze_secret_key" then some c.breeze_secret_key
  else if name = "breeze_session_token" then some c.breeze_session_token
  else if name = "breeze_base_url" then some c.breeze_base_url
  else if name = "environment" then some c.environment
  else if name = "timescaledb_host" then some c.timescaledb_host
  else if name = "timescaledb_port" then some c.timescaledb_port
  else if name = "timescaledb_database" then some c.timescaledb_database
  else if name = "timescaledb_user" then some c.timescaledb_user
  else if name = "timescaledb_password" then some c.timescaledb_password
  else Option.none

/-- Python exceptions that can escape a method in this codebase. -/
inductive PyExn where
  | valueError : String → PyExn
  | attributeError : String → PyExn
  | typeError : String → PyExn
deriving DecidableEq

/-- An attribute read, raising AttributeError when the name is undefined. -/
def Config.readAttr (c : Config) (name : String) : Except PyExn PyVal :=
  match c.getattr name with
  | some v => Except.ok v
  | Option.none => Except.error (PyExn.attributeError name)

/-! ## BreezeAuth construction (src/auth/breeze_auth.py lines 20-27) -/

/-- The fields BreezeAuth.__init__ assigns when it completes. -/
structure BreezeAuthObj where
  session_token : Option String
  session_expiry : Option Nat
  base_url : PyVal
  api_key : PyVal
  secret_key : PyVal
  account_id : PyVal

/-- BreezeAuth.__init__: reads the configuration attributes in source order
(base_url, api_key, secret_key, account_id); an undefined attribute raises
AttributeError at that point. -/
def BreezeAuth.init (c : Config) : Except PyExn BreezeAuthObj := do
  let base_url ← c.readAttr "breeze_base_url"
  let api_key ← c.readAttr "breeze_api_key"
  let secret_key ← c.readAttr "breeze_secret_key"
  let account_id ← c.readAttr "breeze_account_id"
  Except.ok { session_token := Option.none, session_expiry := Option.none,
              base_url, api_key, secret_key, account_id }

/-- The fields BreezeClient.__init__ assigns when it completes. -/
structure BreezeClientObj where
  auth : BreezeAuthObj
  base_url : PyVal

/-- BreezeClient.__init__: constructs a BreezeAuth (which may raise), then
reads breeze_base_url. -/
def BreezeClient.init (c : Config) : Except PyExn BreezeClientObj := do
  let auth ← BreezeAuth.init c
  let base_url ← c.readAttr "breeze_base_url"
  Except.ok { auth, base_url }

/-! ## BreezeAuth session lifecycle (src/auth/breeze_auth.py) -/

/-- Local session state of a BreezeAuth instance, plus the global
config.breeze_session_token mirror that the methods also update. The
credential fields (base_url, api_key, secret_key, account_id) only feed the
outgoing request, which is modelled by the explicit remote-outcome
parameter, so they are not part of the evolving state. -/
structure AuthState where
  session_token : Option String
  session_expiry : Option Nat
  config_session_token : Option String
deriving DecidableEq

/-- Python truthiness of an optional string: None and the empty string are
falsy, every other string is truthy. -/
def pyTruthy : Option String → Bool
  | Option.none => false
  | some s => !(s == "")

/-- BreezeAuth.validate_session at clock instant now: a truthy token must be
present and, when an expiry is stored, now must not exceed it. A pure local
check, no remote interaction. -/
def validate_session (st : AuthState) (now : Nat) : Bool :=
  if !pyTruthy st.session_token then false
  else
    match st.session_expiry with
    | some expiry => if now > expiry then false else true
    | Option.none => true

/-- BreezeAuth.get_session_token: the token when the session validates,
None otherwise. -/
def get_session_token (st : AuthState) (now : Nat) : Option String :=
  if validate_session st now then st.session_token else Option.none

/-- The Success object of the authenticate envelope with its optional
session_token field. -/
structure AuthSuccess where
  session_token : Option String
deriving DecidableEq

/-- The remote JSON envelope: Status, Success and Error fields, each possibly
absent (the source reads them with dict.get). -/
structure Envelope (α : Type) where
  status : Option Int
  success : Option α
  error : Option String
deriving DecidableEq

deriving instance DecidableEq for Except

/-- Outcome of an HTTP request: a transport-level exception, or a response
with a status code and a body whose JSON decoding may itself raise. -/
inductive RemoteOutcome (α : Type) where
  | exn : String → RemoteOutcome α
  | http : Nat → Except String α → RemoteOutcome α
deriving DecidableEq

/-- The token generate_session extracts from the envelope:
Success (defaulting to an empty object) then its session_token field. -/
def envelopeToken (d : Envelope AuthSuccess) : Option String :=
  (d.success.getD ⟨Option.none⟩).session_token

/-- BreezeAuth.generate_session: posts credentials (the request itself is the
outcome parameter) and on HTTP 200 with envelope Status 200 stores the
envelope token, sets expiry to now + 23 hours and mirrors the token into the
configuration; every other outcome returns False with a diagnostic and leaves
the state untouched. The result is ((success, message), new state). -/
def generate_session (st : AuthState) (user_id password : String) (now : Nat)
    (outcome : RemoteOutcome (Envelope AuthSuccess)) :
    (Bool × String) × AuthState :=
  match outcome with
  | RemoteOutcome.exn m =>
      ((false, "Exception during authentication: " ++ m), st)
  | RemoteOutcome.http code body =>
      if code = 200 then
        match body with
        | Except.error m =>
            ((false, "Exception during authentication: " ++ m), st)
        | Except.ok data =>
            if data.status = some 200 then
              ((true, "Session generated successfully"),
                { session_token := envelopeToken data,
                  session_expiry := some (now + 23 * 3600),
                  config_session_token := envelopeToken data })
            else
              ((false,
                "Authentication failed: " ++ data.error.getD "Unknown error"),
               st)
      else
        ((false, "HTTP Error: " ++ toString code), st)

/-- Outcome of the logout POST: a transport exception or a status code (the
response body is never read). -/
inductive PostOutcome where
  | exn : String → PostOutcome
  | resp : Nat → PostOutcome
deriving DecidableEq

/-- BreezeAuth.logout: with a falsy token it returns True at once (leaving the
state, in particular a stale expiry, untouched); otherwise it posts to the
logout endpoint, clears token, expiry and the configuration mirror regardless
of the response, and returns whether the status code was 200 — True when the
post itself raised. -/
def logout (st : AuthState) (outcome : PostOutcome) : Bool × AuthState :=
  if !pyTruthy st.session_token then (true, st)
  else
    match outcome with
    | PostOutcome.exn _ =>
        (true, { session_token := Option.none, session_expiry := Option.none,
                 config_session_token := Option.none })
    | PostOutcome.resp code =>
        (code == 200,
         { session_token := Option.none, session_expiry := Option.none,
           config_session_token := Option.none })

/-- BreezeAuth.get_auth_headers: raises ValueError without a valid session;
otherwise returns the Content-Type / X-CSRF-TOKEN / Authorization headers. -/
def get_auth_headers (st : AuthState) (now : Nat) :
    Except PyExn (List (String × String)) :=
  if !validate_session st now then
    Except.error (PyExn.valueError "No valid session. Please authenticate first.")
  else
    Except.ok [("Content-Type", "application/json"),
               ("X-CSRF-TOKEN", ""),
               ("Authorization", "Bearer " ++ st.session_token.getD "")]

/-! ## BreezeClient (src/api/breeze_client.py) -/

/-- BreezeClient._compute_checksum: the SHA-256 hex digest of the UTF-8 bytes
of timestamp + payload + secret, where the secret is
config.breeze_secret_key, passed here explicitly. -/
def _compute_checksum (timestamp payload secret : String) : String :=
  hexOfBytes (sha256 (utf8Encode (timestamp ++ payload ++ secret)))

/-- The header record _get_auth_headers returns: exactly these five headers. -/
structure AuthHeaders where
  contentType : String
  xChecksum : String
  xTimestamp : String
  xAppKey : String
  xSessionToken : Option String
deriving DecidableEq

/-- BreezeClient._get_auth_headers. nowIso stands for the current UTC time
formatted by isoformat and truncated to 19 characters (seconds precision);
the code appends the literal .000Z and feeds the very same string to the
checksum. api_key and secret stand for config.breeze_api_key and
config.breeze_secret_key. Without a valid session it raises ValueError. -/
def _get_auth_headers (st : AuthState) (now : Nat) (nowIso : String)
    (api_key secret : String) (payload : String) :
    Except PyExn AuthHeaders :=
  if !validate_session st now then
    Except.error (PyExn.valueError "No valid session. Please authenticate first.")
  else
    let timestamp := nowIso ++ ".000Z"
    let checksum := _compute_checksum timestamp payload secret
    Except.ok { contentType := "application/json",
                xChecksum := "token " ++ checksum,
                xTimestamp := timestamp,
                xAppKey := api_key,
                xSessionToken := get_session_token st now }

/-- A Python call of BreezeAuth.generate_session with an explicit positional
argument list: the method requires exactly user_id and password, so any other
arity raises TypeError before the body runs. -/
def callGenerateSession (st : AuthState) (now : Nat)
    (outcome : RemoteOutcome (Envelope AuthSuccess)) (args : List String) :
    Except PyExn ((Bool × String) × AuthState) :=
  match args with
  | [user_id, password] =>
      Except.ok (generate_session st user_id password now outcome)
  | _ =>
      Except.error (PyExn.typeError
        "generate_session() missing 2 required positional arguments: user_id and password")

/-- BreezeClient.authenticate: calls self.auth.generate_session() with no
arguments, although the method requires two; the resulting TypeError is not
caught anywhere in authenticate. -/
def authenticate (st : AuthState) (now : Nat)
    (outcome : RemoteOutcome (Envelope AuthSuccess)) :
    Except PyExn (Bool × AuthState) :=
  (callGenerateSession st now outcome []).map fun r => (r.1.1, r.2)

/-- Observable result of a client read method: the returned Python value
(None on failure), the diagnostic lines printed, and whether the HTTP request
was issued. -/
structure ReadOutput (α : Type) where
  result : Option α
  printed : List String
  networkCalled : Bool
deriving DecidableEq

/-- BreezeClient.get_account_balance. The surrounding try block turns the
no-session ValueError and any transport or JSON failure into a printed
message and a None result; the header build inside the valid branch re-checks
the same clock, so it cannot raise there. -/
def get_account_balance (α : Type) (emptyObj : α) (st : AuthState) (now : Nat)
    (outcome : RemoteOutcome (Envelope α)) : ReadOutput α :=
  if !validate_session st now then
    { result := Option.none,
      printed := ["❌ Exception getting account balance: No valid session. Please authenticate first."],
      networkCalled := false }
  else
    match outcome with
    | RemoteOutcome.exn m =>
        { result := Option.none,
          printed := ["❌ Exception getting account balance: " ++ m],
          networkCalled := true }
    | RemoteOutcome.http code body =>
        if code = 200 then
          match body with
          | Except.error m =>
              { result := Option.none,
                printed := ["❌ Exception getting account balance: " ++ m],
                networkCalled := true }
          | Except.ok data =>
              if data.status = some 200 then
                { result := some (data.success.getD emptyObj),
                  printed := [], networkCalled := true }
              else
                { result := Option.none,
                  printed := ["❌ Failed to get account balance: " ++ data.error.getD "Unknown error"],
                  networkCalled := true }
        else
          { result := Option.none,
            printed := ["❌ HTTP Error: " ++ toString code],
            networkCalled := true }

/-- BreezeClient.get_portfolio, identical in shape to get_account_balance but
for the holdings endpoint, with an empty-list default for the payload. -/
def get_portfolio (β : Type) (st : AuthState) (now : Nat)
    (outcome : RemoteOutcome (Envelope (List β))) : ReadOutput (List β) :=
  if !validate_session st now then
    { result := Option.none,
      printed := ["❌ Exception getting portfolio: No valid session. Please authenticate first."],
      networkCalled := false }
  else
    match outcome with
    | RemoteOutcome.exn m =>
        { result := Option.none,
          printed := ["❌ Exception getting portfolio: " ++ m],
          networkCalled := true }
    | RemoteOutcome.http code body =>
        if code = 200 then
          match body with
          | Except.error m =>
              { result := Option.none,
                printed := ["❌ Exception getting portfolio: " ++ m],
                networkCalled := true }
          | Except.ok data =>
              if data.status = some 200 then
                { result := some (data.success.getD []),
                  printed := [], networkCalled := true }
              else
                { result := Option.none,
                  printed := ["❌ Failed to get portfolio: " ++ data.error.getD "Unknown error"],
                  networkCalled := true }
        else
          { result := Option.none,
            printed := ["❌ HTTP Error: " ++ toString code],
            networkCalled := true }

/-- BreezeClient.get_open_orders as it stands in src/: after the session
check it is short-circuited, printing a notice and returning an empty list;
it never contacts the network. -/
def get_open_orders (β : Type) (st : AuthState) (now : Nat) : ReadOutput (List β) :=
  if !validate_session st now then
    { result := Option.none,
      printed := ["❌ Exception getting open orders: No valid session. Please authenticate first."],
      networkCalled := false }
  else
    { result := some [],
      printed := ["ℹ️  Open orders functionality temporarily disabled due to API checksum requirements"],
      networkCalled := false }

/-- BreezeClient.get_order_history as it stands in src/: the days parameter
is accepted but unused; after the session check it is short-circuited like
get_open_orders. -/
def get_order_history (β : Type) (st : AuthState) (now : Nat) (days : Nat) :
    ReadOutput (List β) :=
  if !validate_session st now then
    { result := Option.none,
      printed := ["❌ Exception getting order history: No valid session. Please authenticate first."],
      networkCalled := false }
  else
    { result := some [],
      printed := ["ℹ️  Order history functionality temporarily disabled due to API checksum requirements"],
      networkCalled := false }

/-! ## Spec-modelled open-orders filtering path -/

/-- An order record as the orders endpoint returns it: its status field plus
the rest of the record, abstracted as a string. -/
structure OrderRec where
  status : String
  rest : String
deriving DecidableEq

/-- The order statuses counted as open. -/
def openOrderStatuses : List String := ["PENDING", "OPEN", "PARTIALLY_FILLED"]

/-- Whether an order record counts as open. -/
def isOpenOrder (o : OrderRec) : Bool := openOrderStatuses.contains o.status

/-- Modelled from the spec: the repository's non-disabled get_open_orders code
path, absent from src/ (where the method is short-circuited to an empty
list). Per the spec it follows the common request shape against the orders
endpoint and filters the returned sequence to only records whose status field
is one of PENDING, OPEN, PARTIALLY_FILLED. -/
def get_open_orders_filtering (st : AuthState) (now : Nat)
    (outcome : RemoteOutcome (Envelope (List OrderRec))) :
    ReadOutput (List OrderRec) :=
  if !validate_session st now then
    { result := Option.none,
      printed := ["❌ Exception getting open orders: No valid session. Please authenticate first."],
      networkCalled := false }
  else
    match outcome with
    | RemoteOutcome.exn m =>
        { result := Option.none,
          printed := ["❌ Exception getting open orders: " ++ m],
          networkCalled := true }
    | RemoteOutcome.http code body =>
        if code = 200 then
          match body with
          | Except.error m =>
              { result := Option.none,
                printed := ["❌ Exception getting open orders: " ++ m],
                networkCalled := true }
          | Except.ok data =>
              if data.status = some 200 then
                { result := some ((data.success.getD []).filter isOpenOrder),
                  printed := [], networkCalled := true }
              else
                { result := Option.none,
                  printed := ["❌ Failed to get open orders: " ++ data.error.getD "Unknown error"],
                  networkCalled := true }
        else
          { result := Option.none,
            printed := ["❌ HTTP Error: " ++ toString code],
            networkCalled := true }

/-! ## Helper lemmas -/

/-- A validating session holds a token. -/
theorem token_isSome_of_validate (st : AuthState) (now : Nat)
    (h : validate_session st now = true) : st.session_token.isSome := by
  cases hst : st.session_token with
  | none => simp [validate_session, pyTruthy, hst] at h
  | some s => rfl

/-- With a validating session, get_session_token returns the stored token. -/
theorem get_session_token_of_validate (st : AuthState) (now : Nat)
    (h : validate_session st now = true) :
    get_session_token st now = st.session_token := by
  simp [get_session_token, h]

/-! ## Claims -/

/-- C1: `_compute_checksum` returns the SHA-256 digest of the UTF-8 encoding
of the concatenation timestamp + payload + secret, hex-encoded; it is a pure
function whose result is always a 64-character hex digest, identical for
identical inputs. -/
theorem sha256_checksum_spec (t p s : String) :
    _compute_checksum t p s = hexOfBytes (sha256 (utf8Encode (t ++ p ++ s))) ∧
    (_compute_checksum t p s).length = 64 ∧
    (∀ t2 p2 s2 : String, t = t2 → p = p2 → s = s2 →
      _compute_checksum t p s = _compute_checksum t2 p2 s2) := by
  refine ⟨rfl, ?_, ?_⟩
  · show (hexOfBytes (sha256 (utf8Encode (t ++ p ++ s)))).length = 64
    rw [hexOfBytes_length, sha256_length]
  · intro t2 p2 s2 ht hp hs
    subst ht; subst hp; subst hs
    rfl

/-- C1 witness: the checksum evaluated at a concrete input. -/
theorem sha256_checksum_spec_witness :
    (_compute_checksum "2024-01-01T00:00:00.000Z" "payload" "secret").length = 64 ∧
    _compute_checksum "2024-01-01T00:00:00.000Z" "payload" "secret" =
      _compute_checksum "2024-01-01T00:00:00.000Z" "payload" "secret" :=
  ⟨(sha256_checksum_spec "2024-01-01T00:00:00.000Z" "payload" "secret").2.1,
   (sha256_checksum_spec "2024-01-01T00:00:00.000Z" "payload" "secret").2.2
     "2024-01-01T00:00:00.000Z" "payload" "secret" rfl rfl rfl⟩

/-- C2: `_get_auth_headers` fails with the no-session ValueError whenever the
session does not validate; otherwise it returns exactly the five headers
Content-Type, X-Checksum (the checksum prefixed with the marker "token "),
X-Timestamp (the ISO timestamp with the literal ".000Z" suffix), X-AppKey and
X-SessionToken, and the X-Timestamp string is byte-identical to the timestamp
fed into the checksum for that same call. -/
theorem auth_headers_spec (st : AuthState) (now : Nat)
    (nowIso api_key secret payload : String) :
    (validate_session st now = false →
      _get_auth_headers st now nowIso api_key secret payload =
        Except.error (PyExn.valueError "No valid session. Please authenticate first.")) ∧
    (validate_session st now = true →
      st.session_token.isSome ∧
      _get_auth_headers st now nowIso api_key secret payload =
        Except.ok { contentType := "application/json",
                    xChecksum :=
                      "token " ++ _compute_checksum (nowIso ++ ".000Z") payload secret,
                    xTimestamp := nowIso ++ ".000Z",
                    xAppKey := api_key,
                    xSessionToken := st.session_token }) ∧
    (∀ hd, _get_auth_headers st now nowIso api_key secret payload = Except.ok hd →
      hd.xChecksum = "token " ++ _compute_checksum hd.xTimestamp payload secret ∧
      hd.xTimestamp = nowIso ++ ".000Z") := by
  refine ⟨?_, ?_, ?_⟩
  · intro h
    simp [_get_auth_headers, h]
  · intro h
    refine ⟨token_isSome_of_validate st now h, ?_⟩
    simp [_get_auth_headers, h, get_session_token_of_validate st now h]
  · intro hd hok
    by_cases h : validate_session st now
    · simp [_get_auth_headers, h] at hok
      subst hok
      exact ⟨rfl, rfl⟩
    · simp [_get_auth_headers, eq_false_of_ne_true h] at hok

/-- C2 witness: the header build evaluated on a session-less state and on a
validating state. -/
theorem auth_headers_spec_witness :
    _get_auth_headers ⟨Option.none, Option.none, Option.none⟩ 0
        "2024-01-01T00:00:00" "key" "sec" "" =
      Except.error (PyExn.valueError "No valid session. Please authenticate first.") ∧
    _get_auth_headers ⟨some "tok", some 10, some "tok"⟩ 5
        "2024-01-01T00:00:00" "key" "sec" "" =
      Except.ok { contentType := "application/json",
                  xChecksum :=
                    "token " ++ _compute_checksum "2024-01-01T00:00:00.000Z" "" "sec",
                  xTimestamp := "2024-01-01T00:00:00.000Z",
                  xAppKey := "key",
                  xSessionToken := some "tok" } :=
  ⟨(auth_headers_spec ⟨Option.none, Option.none, Option.none⟩ 0
      "2024-01-01T00:00:00" "key" "sec" "").1 rfl,
   ((auth_headers_spec ⟨some "tok", some 10, some "tok"⟩ 5
      "2024-01-01T00:00:00" "key" "sec" "").2.1 rfl).2⟩

/-- C3: under every environment, constructing a BreezeAuth over the loaded
configuration — and therefore a BreezeClient, whose constructor builds one —
raises AttributeError on breeze_account_id, an attribute Config._load_config
never defines; consequently no instance is ever constructed. -/
theorem breeze_auth_init_raises (env : String → Option String) :
    BreezeAuth.init (_load_config env) =
      Except.error (PyExn.attributeError "breeze_account_id") ∧
    BreezeClient.init (_load_config env) =
      Except.error (PyExn.attributeError "breeze_account_id") := by
  constructor <;> rfl

/-- C3 witness: constructor failure on the empty environment. -/
theorem breeze_auth_init_raises_witness :
    BreezeAuth.init (_load_config fun _ => Option.none) =
      Except.error (PyExn.attributeError "breeze_account_id") :=
  (breeze_auth_init_raises fun _ => Option.none).1

/-- C4: generate_session stores the envelope token with expiry now + 23 hours
and reports success exactly when the HTTP status is 200 and the envelope's
Status field is 200; every other outcome — transport exception, JSON decoding
failure, non-200 HTTP status, application-level error — reports failure with
a diagnostic message and leaves the session state unchanged. -/
theorem generate_session_spec (st : AuthState) (uid pw : String) (now : Nat)
    (outcome : RemoteOutcome (Envelope AuthSuccess)) :
    (∀ d, outcome = RemoteOutcome.http 200 (Except.ok d) → d.status = some 200 →
      generate_session st uid pw now outcome =
        ((true, "Session generated successfully"),
         { session_token := envelopeToken d,
           session_expiry := some (now + 23 * 3600),
           config_session_token := envelopeToken d })) ∧
    (∀ m, outcome = RemoteOutcome.exn m →
      generate_session st uid pw now outcome =
        ((false, "Exception during authentication: " ++ m), st)) ∧
    (∀ code body, outcome = RemoteOutcome.http code body → code ≠ 200 →
      generate_session st uid pw now outcome =
        ((false, "HTTP Error: " ++ toString code), st)) ∧
    (∀ m, outcome = RemoteOutcome.http 200 (Except.error m) →
      generate_session st uid pw now outcome =
        ((false, "Exception during authentication: " ++ m), st)) ∧
    (∀ d, outcome = RemoteOutcome.http 200 (Except.ok d) → d.status ≠ some 200 →
      generate_session st uid pw now outcome =
        ((false, "Authentication failed: " ++ d.error.getD "Unknown error"), st)) := by
  refine ⟨?_, ?_, ?_, ?_, ?_⟩
  · intro d ho hd
    subst ho
    simp [generate_session, hd]
  · intro m ho
    subst ho
    rfl
  · intro code body ho hc
    subst ho
    simp [generate_session, hc]
  · intro m ho
    subst ho
    rfl
  · intro d ho hd
    subst ho
    simp [generate_session, hd]

/-- C4 witness: a successful authentication and an HTTP failure, evaluated
concretely. -/
theorem generate_session_spec_witness :
    generate_session ⟨Option.none, Option.none, Option.none⟩ "u" "p" 0
        (RemoteOutcome.http 200 (Except.ok ⟨some 200, some ⟨some "tok"⟩, Option.none⟩)) =
      ((true, "Session generated successfully"),
       { session_token := some "tok", session_expiry := some 82800,
         config_session_token := some "tok" }) ∧
    generate_session ⟨some "old", some 7, some "old"⟩ "u" "p" 0
        (RemoteOutcome.http 503 (Except.error "boom")) =
      ((false, "HTTP Error: 503"), ⟨some "old", some 7, some "old"⟩) :=
  ⟨(generate_session_spec ⟨Option.none, Option.none, Option.none⟩ "u" "p" 0
      (RemoteOutcome.http 200 (Except.ok ⟨some 200, some ⟨some "tok"⟩, Option.none⟩))).1
      ⟨some 200, some ⟨some "tok"⟩, Option.none⟩ rfl rfl,
   (generate_session_spec ⟨some "old", some 7, some "old"⟩ "u" "p" 0
      (RemoteOutcome.http 503 (Except.error "boom"))).2.2.1
      503 (Except.error "boom") rfl (by decide)⟩

/-- C5 counterexample: with a stored token and a remote logout response of
HTTP 500, logout clears the session but returns False — refuting that logout
always reports success. -/
theorem logout_success_counterexample :
    (logout ⟨some "tok", some 1000, some "tok"⟩ (PostOutcome.resp 500)).1 = false := by
  rfl

/-- C5 amended: logout clears token, expiry and the configuration mirror
whenever a truthy token is present — also when the remote call raises — and
then returns True iff the remote call raised or answered HTTP 200; with a
falsy token it returns True at once, leaving the state (including any stale
expiry) untouched. After any logout the token is absent, so a second logout
in a row always returns True. -/
theorem logout_amended (st : AuthState) (outcome outcome2 : PostOutcome) :
    (pyTruthy st.session_token = false → logout st outcome = (true, st)) ∧
    (pyTruthy st.session_token = true →
      (logout st outcome).2 = ⟨Option.none, Option.none, Option.none⟩ ∧
      ((logout st outcome).1 = true ↔
        (∃ m, outcome = PostOutcome.exn m) ∨ outcome = PostOutcome.resp 200)) ∧
    pyTruthy (logout st outcome).2.session_token = false ∧
    (logout (logout st outcome).2 outcome2).1 = true := by
  refine ⟨?_, ?_, ?_, ?_⟩
  · intro h
    simp [logout, h]
  · intro h
    cases outcome with
    | exn m => simp [logout, h]
    | resp code => simp [logout, h]
  · by_cases h : pyTruthy st.session_token
    · cases outcome <;> simp only [logout, h] <;> rfl
    · have h0 : pyTruthy st.session_token = false := eq_false_of_ne_true h
      simp [logout, h0]
  · by_cases h : pyTruthy st.session_token
    · cases outcome <;> simp only [logout, h] <;> rfl
    · have h0 : pyTruthy st.session_token = false := eq_false_of_ne_true h
      simp [logout, h0]

/-- C5 witness: a falsy-token logout and a transport-failure logout evaluated
concretely. -/
theorem logout_amended_witness :
    logout ⟨Option.none, some 5, Option.none⟩ (PostOutcome.resp 200) =
      (true, ⟨Option.none, some 5, Option.none⟩) ∧
    (logout ⟨some "tok", some 5, some "tok"⟩ (PostOutcome.exn "connection lost")).2 =
      ⟨Option.none, Option.none, Option.none⟩ :=
  ⟨(logout_amended ⟨Option.none, some 5, Option.none⟩ (PostOutcome.resp 200)
      (PostOutcome.resp 200)).1 rfl,
   ((logout_amended ⟨some "tok", some 5, some "tok"⟩ (PostOutcome.exn "connection lost")
      (PostOutcome.resp 200)).2.1 rfl).1⟩

/-- C6: while the session does not validate, each of the four read methods
returns None after printing its no-session diagnostic, and none of them
touches the network. -/
theorem no_session_guard (α β : Type) (emptyObj : α) (st : AuthState)
    (now days : Nat) (o1 : RemoteOutcome (Envelope α))
    (o2 : RemoteOutcome (Envelope (List β)))
    (h : validate_session st now = false) :
    get_account_balance α emptyObj st now o1 =
      { result := Option.none,
        printed := ["❌ Exception getting account balance: No valid session. Please authenticate first."],
        networkCalled := false } ∧
    get_portfolio β st now o2 =
      { result := Option.none,
        printed := ["❌ Exception getting portfolio: No valid session. Please authenticate first."],
        networkCalled := false } ∧
    get_open_orders β st now =
      { result := Option.none,
        printed := ["❌ Exception getting open orders: No valid session. Please authenticate first."],
        networkCalled := false } ∧
    get_order_history β st now days =
      { result := Option.none,
        printed := ["❌ Exception getting order history: No valid session. Please authenticate first."],
        networkCalled := false } := by
  refine ⟨?_, ?_, ?_, ?_⟩ <;>
    simp [get_account_balance, get_portfolio, get_open_orders, get_order_history, h]

/-- C6 witness: the guard evaluated on the fresh unauthenticated state. -/
theorem no_session_guard_witness :
    validate_session ⟨Option.none, Option.none, Option.none⟩ 0 = false ∧
    get_account_balance String "" ⟨Option.none, Option.none, Option.none⟩ 0
        (RemoteOutcome.exn "never sent") =
      { result := Option.none,
        printed := ["❌ Exception getting account balance: No valid session. Please authenticate first."],
        networkCalled := false } :=
  ⟨rfl,
   (no_session_guard String String "" ⟨Option.none, Option.none, Option.none⟩ 0 7
      (RemoteOutcome.exn "never sent") (RemoteOutcome.exn "never sent") rfl).1⟩

/-- C7: with a validating session, get_account_balance and get_portfolio map
the remote response exactly as specified: HTTP 200 with envelope Status 200
yields the Success payload (with the empty default when absent); HTTP 200
with any other Status yields a failure carrying the envelope's Error message;
a non-200 HTTP status yields a failure carrying that status; a transport
failure yields a failure carrying its diagnostic. -/
theorem envelope_mapping (α β : Type) (emptyObj : α) (st : AuthState) (now : Nat)
    (h : validate_session st now = true) :
    (∀ d : Envelope α, d.status = some 200 →
      get_account_balance α emptyObj st now (RemoteOutcome.http 200 (Except.ok d)) =
        { result := some (d.success.getD emptyObj), printed := [],
          networkCalled := true }) ∧
    (∀ d : Envelope α, d.status ≠ some 200 →
      get_account_balance α emptyObj st now (RemoteOutcome.http 200 (Except.ok d)) =
        { result := Option.none,
          printed := ["❌ Failed to get account balance: " ++ d.error.getD "Unknown error"],
          networkCalled := true }) ∧
    (∀ (code : Nat) (body : Except String (Envelope α)), code ≠ 200 →
      get_account_balance α emptyObj st now (RemoteOutcome.http code body) =
        { result := Option.none,
          printed := ["❌ HTTP Error: " ++ toString code],
          networkCalled := true }) ∧
    (∀ m, get_account_balance α emptyObj st now (RemoteOutcome.exn m) =
        { result := Option.none,
          printed := ["❌ Exception getting account balance: " ++ m],
          networkCalled := true }) ∧
    (∀ d : Envelope (List β), d.status = some 200 →
      get_portfolio β st now (RemoteOutcome.http 200 (Except.ok d)) =
        { result := some (d.success.getD []), printed := [],
          networkCalled := true }) ∧
    (∀ d : Envelope (List β), d.status ≠ some 200 →
      get_portfolio β st now (RemoteOutcome.http 200 (Except.ok d)) =
        { result := Option.none,
          printed := ["❌ Failed to get portfolio: " ++ d.error.getD "Unknown error"],
          networkCalled := true }) ∧
    (∀ (code : Nat) (body : Except String (Envelope (List β))), code ≠ 200 →
      get_portfolio β st now (RemoteOutcome.http code body) =
        { result := Option.none,
          printed := ["❌ HTTP Error: " ++ toString code],
          networkCalled := true }) ∧
    (∀ m, get_portfolio β st now (RemoteOutcome.exn m) =
        { result := Option.none,
          printed := ["❌ Exception getting portfolio: " ++ m],
          networkCalled := true }) := by
  refine ⟨?_, ?_, ?_, ?_, ?_, ?_, ?_, ?_⟩
  · intro d hd
    simp [get_account_balance, h, hd]
  · intro d hd
    simp [get_account_balance, h, hd]
  · intro code body hc
    simp [get_account_balance, h, hc]
  · intro m
    simp [get_account_balance, h]
  · intro d hd
    simp [get_portfolio, h, hd]
  · intro d hd
    simp [get_portfolio, h, hd]
  · intro code body hc
    simp [get_portfolio, h, hc]
  · intro m
    simp [get_portfolio, h]

/-- C7 witness: the spec's canned responses — a Status 500 envelope inside
HTTP 200 and an HTTP 503 — evaluated concretely on a validating state. -/
theorem envelope_mapping_witness :
    validate_session ⟨some "tok", some 10, some "tok"⟩ 5 = true ∧
    get_account_balance String "" ⟨some "tok", some 10, some "tok"⟩ 5
        (RemoteOutcome.http 503 (Except.error "unavailable")) =
      { result := Option.none, printed := ["❌ HTTP Error: 503"],
        networkCalled := true } ∧
    get_portfolio String ⟨some "tok", some 10, some "tok"⟩ 5
        (RemoteOutcome.http 200 (Except.ok ⟨some 500, Option.none, some "x"⟩)) =
      { result := Option.none, printed := ["❌ Failed to get portfolio: x"],
        networkCalled := true } ∧
    get_account_balance String "" ⟨some "tok", some 10, some "tok"⟩ 5
        (RemoteOutcome.http 200 (Except.ok ⟨some 200, some "balance", Option.none⟩)) =
      { result := some "balance", printed := [], networkCalled := true } :=
  ⟨rfl,
   (envelope_mapping String String "" ⟨some "tok", some 10, some "tok"⟩ 5 rfl).2.2.1
     503 (Except.error "unavailable") (by decide),
   (envelope_mapping String String "" ⟨some "tok", some 10, some "tok"⟩ 5 rfl).2.2.2.2.2.1
     ⟨some 500, Option.none, some "x"⟩ (by decide),
   (envelope_mapping String String "" ⟨some "tok", some 10, some "tok"⟩ 5 rfl).1
     ⟨some 200, some "balance", Option.none⟩ rfl⟩

/-- C8 (on the spec-modelled filtering path): with a validating session and a
successful envelope, get_open_orders returns exactly the records whose status
is PENDING, OPEN or PARTIALLY_FILLED, in their original relative order: the
result is the status filter of the returned sequence, which is a sublist of
it (preserving relative order) and contains a record precisely when the
record occurs in the sequence with one of the three open statuses. -/
theorem open_orders_filtering_spec (st : AuthState) (now : Nat)
    (h : validate_session st now = true) (d : Envelope (List OrderRec))
    (hd : d.status = some 200) :
    get_open_orders_filtering st now (RemoteOutcome.http 200 (Except.ok d)) =
      { result := some ((d.success.getD []).filter isOpenOrder),
        printed := [], networkCalled := true } ∧
    ((d.success.getD []).filter isOpenOrder).Sublist (d.success.getD []) ∧
    (∀ o : OrderRec, o ∈ (d.success.getD []).filter isOpenOrder ↔
      o ∈ d.success.getD [] ∧
        (o.status = "PENDING" ∨ o.status = "OPEN" ∨ o.status = "PARTIALLY_FILLED")) := by
  refine ⟨by simp [get_open_orders_filtering, h, hd], List.filter_sublist _, ?_⟩
  intro o
  simp [List.mem_filter, isOpenOrder, openOrderStatuses]

/-- C8 witness: the spec's mixed list with statuses PENDING, FILLED, OPEN,
CANCELLED, PARTIALLY_FILLED yields exactly the three matching entries in
their original order. -/
theorem open_orders_filtering_spec_witness :
    get_open_orders_filtering ⟨some "tok", some 10, some "tok"⟩ 5
        (RemoteOutcome.http 200 (Except.ok ⟨some 200,
          some [⟨"PENDING", "o1"⟩, ⟨"FILLED", "o2"⟩, ⟨"OPEN", "o3"⟩,
                ⟨"CANCELLED", "o4"⟩, ⟨"PARTIALLY_FILLED", "o5"⟩], Option.none⟩)) =
      { result := some [⟨"PENDING", "o1"⟩, ⟨"OPEN", "o3"⟩, ⟨"PARTIALLY_FILLED", "o5"⟩],
        printed := [], networkCalled := true } :=
  (open_orders_filtering_spec ⟨some "tok", some 10, some "tok"⟩ 5 rfl
    ⟨some 200,
     some [⟨"PENDING", "o1"⟩, ⟨"FILLED", "o2"⟩, ⟨"OPEN", "o3"⟩,
           ⟨"CANCELLED", "o4"⟩, ⟨"PARTIALLY_FILLED", "o5"⟩], Option.none⟩ rfl).1

/-- C9 counterexample: an HTTP 200 / Status 200 envelope whose Success object
carries no session_token makes generate_session report success while storing
an absent token — refuting that a successful generate_session never stores an
empty or absent token. -/
theorem stored_token_absent_counterexample :
    (generate_session ⟨Option.none, Option.none, Option.none⟩ "u" "p" 0
        (RemoteOutcome.http 200
          (Except.ok ⟨some 200, some ⟨Option.none⟩, Option.none⟩))).1.1 = true ∧
    (generate_session ⟨Option.none, Option.none, Option.none⟩ "u" "p" 0
        (RemoteOutcome.http 200
          (Except.ok ⟨some 200, some ⟨Option.none⟩, Option.none⟩))).2.session_token =
      Option.none := by
  constructor <;> rfl

/-- C9 amended: a successful generate_session stores an expiry of creation
time + 23 hours — strictly in the future at creation — and stores exactly the
envelope's session_token value, which may be absent or empty when the
envelope omits it; the non-empty-token half of the original invariant is not
enforced by the code. -/
theorem session_invariant_amended (st : AuthState) (uid pw : String) (now : Nat)
    (d : Envelope AuthSuccess) (hd : d.status = some 200) :
    (generate_session st uid pw now (RemoteOutcome.http 200 (Except.ok d))).1.1 =
      true ∧
    (generate_session st uid pw now
        (RemoteOutcome.http 200 (Except.ok d))).2.session_expiry =
      some (now + 23 * 3600) ∧
    now < now + 23 * 3600 ∧
    (generate_session st uid pw now
        (RemoteOutcome.http 200 (Except.ok d))).2.session_token =
      envelopeToken d := by
  refine ⟨?_, ?_, by omega, ?_⟩ <;> simp [generate_session, hd]

/-- C9 witness: the amended invariant evaluated on a concrete envelope. -/
theorem session_invariant_amended_witness :
    (generate_session ⟨Option.none, Option.none, Option.none⟩ "u" "p" 7
        (RemoteOutcome.http 200
          (Except.ok ⟨some 200, some ⟨some "tok"⟩, Option.none⟩))).2.session_expiry =
      some 82807 ∧
    (7 : Nat) < 7 + 23 * 3600 :=
  ⟨(session_invariant_amended ⟨Option.none, Option.none, Option.none⟩ "u" "p" 7
      ⟨some 200, some ⟨some "tok"⟩, Option.none⟩ rfl).2.1,
   (session_invariant_amended ⟨Option.none, Option.none, Option.none⟩ "u" "p" 7
      ⟨some 200, some ⟨some "tok"⟩, Option.none⟩ rfl).2.2.1⟩

/-- C10 counterexample: two public methods let exceptions escape —
BreezeAuth.get_auth_headers raises ValueError on a session-less state, and
BreezeClient.authenticate raises TypeError on every input because it calls
generate_session without its two required positional arguments — refuting
that no exception propagates past a public method boundary. -/
theorem exception_escape_counterexample :
    get_auth_headers ⟨Option.none, Option.none, Option.none⟩ 0 =
      Except.error (PyExn.valueError "No valid session. Please authenticate first.") ∧
    authenticate ⟨Option.none, Option.none, Option.none⟩ 0 (RemoteOutcome.exn "x") =
      Except.error (PyExn.typeError
        "generate_session() missing 2 required positional arguments: user_id and password") := by
  constructor <;> rfl

/-- C10 amended: generate_session, logout and the read methods do catch every
remote-call failure at the call site and return a result — in particular each
returns a diagnostic value, not an exception, when the remote call raises —
but the two header-building operations raise ValueError exactly when the
session does not validate, and BreezeClient.authenticate raises TypeError on
every input. -/
theorem exception_policy_amended (st : AuthState) (now : Nat)
    (uid pw m nowIso api_key secret payload : String) (α : Type) (emptyObj : α)
    (o : RemoteOutcome (Envelope AuthSuccess)) :
    (generate_session st uid pw now (RemoteOutcome.exn m)).1 =
      (false, "Exception during authentication: " ++ m) ∧
    (logout st (PostOutcome.exn m)).1 = true ∧
    (get_account_balance α emptyObj st now (RemoteOutcome.exn m)).result =
      Option.none ∧
    (get_portfolio α st now (RemoteOutcome.exn m)).result = Option.none ∧
    ((∃ e, get_auth_headers st now = Except.error e) ↔
      validate_session st now = false) ∧
    ((∃ e, _get_auth_headers st now nowIso api_key secret payload =
        Except.error e) ↔ validate_session st now = false) ∧
    authenticate st now o =
      Except.error (PyExn.typeError
        "generate_session() missing 2 required positional arguments: user_id and password") := by
  refine ⟨rfl, ?_, ?_, ?_, ?_, ?_, rfl⟩
  · by_cases h : pyTruthy st.session_token
    · simp [logout, h]
    · simp [logout, eq_false_of_ne_true h]
  · by_cases h : validate_session st now
    · simp [get_account_balance, h]
    · simp [get_account_balance, eq_false_of_ne_true h]
  · by_cases h : validate_session st now
    · simp [get_portfolio, h]
    · simp [get_portfolio, eq_false_of_ne_true h]
  · by_cases h : validate_session st now
    · simp [get_auth_headers, h]
    · simp [get_auth_headers, eq_false_of_ne_true h]
  · by_cases h : validate_session st now
    · simp [_get_auth_headers, h]
    · simp [_get_auth_headers, eq_false_of_ne_true h]

/-- C10 witness: the amended propagation policy evaluated concretely. -/
theorem exception_policy_amended_witness :
    (generate_session ⟨some "tok", some 10, some "tok"⟩ "u" "p" 5
        (RemoteOutcome.exn "connection lost")).1 =
      (false, "Exception during authentication: connection lost") ∧
    (logout ⟨some "tok", some 10, some "tok"⟩ (PostOutcome.exn "connection lost")).1 =
      true :=
  ⟨(exception_policy_amended ⟨some "tok", some 10, some "tok"⟩ 5 "u" "p"
      "connection lost" "iso" "k" "s" "" String "" (RemoteOutcome.exn "x")).1,
   (exception_policy_amended ⟨some "tok", some 10, some "tok"⟩ 5 "u" "p"
      "connection lost" "iso" "k" "s" "" String "" (RemoteOutcome.exn "x")).2.1⟩
